import Mathlib

/-!
Shallow embedding of the Product Transparency AI service
(src/ai-service/main.py): the question catalog, the category and
transparency scorers, the recommendation generator, and the AI
question/analysis components with their error-handling wrappers.

Numeric conventions: Python's arithmetic on these inputs is embedded over
ℚ with exact rationals (the weights 0.5/0.3/0.2 are 1/2, 3/10, 1/5), and
Python's `int()` cast is `pytrunc`, truncation toward zero.
The external model call and `json.loads` are parameters of type
`Except String _`: an `.error` value is a raised exception, `.ok` a
normal return, so the try/except wrappers become matches on that value.
-/

namespace AIService

/-- A caller-supplied response dict; the keys `question`, `answer` and
`category` may each be absent (`r.get(...)` returns `None`). -/
structure Response where
  question : Option String
  answer : Option String
  category : Option String
deriving DecidableEq, Repr

/-- A question record, from the static catalog or the AI generator. -/
structure Question where
  id : String
  question : String
  type : String
  category : String
deriving DecidableEq, Repr

/-- Body of the `/generate-questions` reply. -/
structure QuestionResponse where
  questions : List Question
  ai_generated : Bool
deriving DecidableEq, Repr

/-- Body of the `/transparency-score` reply. -/
structure ScoreResponse where
  transparency_score : ℤ
  health_score : ℤ
  ethics_score : ℤ
  recommendations : List String
  ai_analysis : String
deriving DecidableEq, Repr

/-- Python `int()` applied to a rational value: truncation toward zero. -/
def pytrunc (q : ℚ) : ℤ := if 0 ≤ q then ⌊q⌋ else ⌈q⌉

/-- The ASCII whitespace characters removed by Python `str.strip()`. -/
def isPySpace (c : Char) : Bool :=
  c == ' ' || c == '\t' || c == '\n' || c == '\r' || c == '\x0b' || c == '\x0c'

/-- Drop leading whitespace characters. -/
def stripLeft : List Char → List Char
  | [] => []
  | c :: cs => if isPySpace c then stripLeft cs else c :: cs

/-- Python `str.strip()`: remove leading and trailing whitespace. -/
def pystrip (s : String) : String :=
  String.mk (((stripLeft s.data).reverse |> stripLeft).reverse)

/-- Python `str.startswith(pre)`. -/
def pystartswith (s pre : String) : Bool :=
  pre.data.isPrefixOf s.data

/-- Fuelled loop of Python `str.replace(pat, repl)`: replace each
non-overlapping occurrence of `pat`, scanning left to right. The fuel
only guards against an empty pattern, which never occurs here. -/
def replaceLoop (pat repl : List Char) : ℕ → List Char → List Char
  | _, [] => []
  | 0, l => l
  | fuel + 1, c :: cs =>
    if pat.isPrefixOf (c :: cs) then
      repl ++ replaceLoop pat repl fuel ((c :: cs).drop pat.length)
    else
      c :: replaceLoop pat repl fuel cs

/-- Python `s.replace(pat, repl)`: replaces every occurrence. -/
def pyreplace (s pat repl : String) : String :=
  String.mk (replaceLoop pat.data repl.data (s.data.length + 1) s.data)

/-- The truthiness test `r.get('answer') and str(r['answer']).strip()`
for a string-valued answer: the key is present, the string non-empty,
and it stays non-empty after stripping whitespace. -/
def isAnswered (r : Response) : Bool :=
  match r.answer with
  | none => false
  | some s => !s.isEmpty && !(pystrip s).isEmpty

/-- Embeds `calculate_category_score`: completion ratio of the responses whose
`category` equals the label; 50 when no response carries the label. -/
def calculate_category_score (responses : List Response) (category : String) : ℤ :=
  let category_responses := responses.filter (fun r => r.category == some category)
  if category_responses.isEmpty then 50
  else
    let answered := (category_responses.filter isAnswered).length
    pytrunc ((answered : ℚ) / category_responses.length * 100)

/-- Quality points of one response: thresholds on the length of
`str(response.get('answer', ''))` — the raw answer, not trimmed. -/
def quality_points_of (r : Response) : ℕ :=
  let answer := r.answer.getD ""
  if answer.length > 100 then 3
  else if answer.length > 50 then 2
  else if answer.length > 10 then 1
  else 0

/-- Number of answered responses. -/
def answeredCount (responses : List Response) : ℕ :=
  (responses.filter isAnswered).length

/-- Embeds `completeness = answered / total_questions * 100`. -/
def completeness (responses : List Response) : ℚ :=
  (answeredCount responses : ℚ) / responses.length * 100

/-- Accumulated quality points over all responses. -/
def quality_points (responses : List Response) : ℕ :=
  (responses.map quality_points_of).sum

/-- Embeds `quality_score = min(100, quality_points / (total_questions * 3) * 100)`. -/
def quality_score (responses : List Response) : ℚ :=
  min 100 ((quality_points responses : ℚ) / (responses.length * 3) * 100)

/-- Embeds `generate_basic_recommendations`: fixed list per score bracket. -/
def generate_basic_recommendations (score : ℤ) : List String :=
  if score ≥ 80 then
    ["Excellent transparency! Share this with customers",
     "Consider publishing detailed supply chain information",
     "Add third-party verification for even more credibility"]
  else if score ≥ 60 then
    ["Good transparency foundation",
     "Add more detailed ingredient sourcing information",
     "Include quality control and testing procedures",
     "Consider adding sustainability metrics"]
  else if score ≥ 40 then
    ["Moderate transparency - needs improvement",
     "Provide complete ingredient lists with sources",
     "Add manufacturing process details",
     "Include all relevant certifications",
     "Answer all health and safety questions thoroughly"]
  else
    ["Low transparency - immediate action needed",
     "Complete all required product information",
     "Provide detailed answers (50+ characters each)",
     "Add certifications and testing results",
     "Include sourcing and manufacturing details",
     "Address all health and safety concerns"]

/-- The weighted blend
`completeness * 0.5 + quality_score * 0.3 + (health + ethics) / 2 * 0.2`
with the float weights read as the exact rationals 1/2, 3/10, 1/5. -/
def overall_weighted (responses : List Response) : ℚ :=
  completeness responses * (1/2) + quality_score responses * (3/10) +
    ((calculate_category_score responses "health" +
      calculate_category_score responses "ethics" : ℤ) : ℚ) / 2 * (1/5)

/-- The `/transparency-score` handler with the AI credential absent
(`GEMINI_API_KEY` empty), so the Gemini branch is skipped. -/
def calculate_transparency_score (responses : List Response) : ScoreResponse :=
  if responses.length = 0 then
    { transparency_score := 0
      health_score := 0
      ethics_score := 0
      recommendations := ["Add product information to get a transparency score"]
      ai_analysis := "No data available for analysis" }
  else
    { transparency_score := pytrunc (overall_weighted responses)
      health_score := calculate_category_score responses "health"
      ethics_score := calculate_category_score responses "ethics"
      recommendations := generate_basic_recommendations (pytrunc (overall_weighted responses))
      ai_analysis := "Standard analysis completed" }

/-- Embeds `get_base_questions`: the 4 static base questions. -/
def get_base_questions : List Question :=
  [{ id := "ingredients",
     question := "What are the main ingredients or components?",
     type := "text", category := "composition" },
   { id := "allergens",
     question := "Does this product contain any allergens?",
     type := "text", category := "health" },
   { id := "origin",
     question := "Where is this product manufactured?",
     type := "text", category := "origin" },
   { id := "certifications",
     question := "List any certifications (Organic, Fair Trade, etc.)",
     type := "text", category := "ethics" }]

/-- Embeds `get_category_questions`: the per-category catalog; unknown
categories map to the empty list. -/
def get_category_questions (category : String) : List Question :=
  if category = "Food" then
    [{ id := "nutrition", question := "Provide key nutritional information",
       type := "text", category := "health" },
     { id := "preservatives", question := "List any preservatives or additives",
       type := "text", category := "health" },
     { id := "expiry", question := "What is the typical shelf life?",
       type := "text", category := "storage" }]
  else if category = "Beverage" then
    [{ id := "sugar", question := "Sugar content per serving?",
       type := "text", category := "health" },
     { id := "artificial", question := "Any artificial ingredients?",
       type := "text", category := "health" }]
  else if category = "Cosmetics" then
    [{ id := "testing", question := "Is this product cruelty-free?",
       type := "text", category := "ethics" },
     { id := "chemicals", question := "List potentially harmful chemicals (if any)",
       type := "text", category := "health" }]
  else if category = "Supplements" then
    [{ id := "clinical", question := "Has this undergone clinical testing?",
       type := "text", category := "health" },
     { id := "dosage", question := "Recommended dosage and warnings?",
       type := "text", category := "health" }]
  else []

/-- Embeds `text = response.text.strip()` followed by the fence-stripping step:
a reply starting with a fenced-code marker has every occurrence of the
marker removed and is stripped again. -/
def clean_response (raw : String) : String :=
  let text := pystrip raw
  if pystartswith text "```json" then
    pystrip (pyreplace (pyreplace text "```json" "") "```" "")
  else if pystartswith text "```" then
    pystrip (pyreplace text "```" "")
  else text

/-- Result of `json.loads` on the question-generator reply: either a
JSON list, whose entries the code passes along as question dicts, or any
other JSON value. -/
inductive PyJson where
  | list (questions : List Question)
  | other
deriving DecidableEq, Repr

/-- The body of `generate_ai_questions` inside its `try`, with the key
configured. The external model call and `json.loads` are parameters
returning `Except`: an `.error` is a raised exception. -/
def generate_ai_questions_body (call : Except String String)
    (jsonLoads : String → Except String PyJson) : Except String (List Question) :=
  match call with
  | .error e => .error e
  | .ok text =>
    match jsonLoads (clean_response text) with
    | .error e => .error e
    | .ok (.list qs) => .ok qs
    | .ok .other => .ok []

/-- Embeds `generate_ai_questions` as its caller observes it: the `except`
clause converts every raised exception into a normal `[]` return. -/
def generate_ai_questions_caught (call : Except String String)
    (jsonLoads : String → Except String PyJson) : Except String (List Question) :=
  match generate_ai_questions_body call jsonLoads with
  | .ok qs => .ok qs
  | .error _ => .ok []

/-- The list of questions `generate_ai_questions` returns. -/
def generate_ai_questions (call : Except String String)
    (jsonLoads : String → Except String PyJson) : List Question :=
  match generate_ai_questions_caught call jsonLoads with
  | .ok qs => qs
  | .error _ => []

/-- The `/generate-questions` handler. `geminiConfigured` is the
truthiness of `GEMINI_API_KEY`; the `try/except` around the AI sub-call
becomes the match on the `Except`-valued caught call. -/
def generate_questions (category : String) (previous_answers : List Response)
    (geminiConfigured : Bool) (call : Except String String)
    (jsonLoads : String → Except String PyJson) : QuestionResponse :=
  let all_questions := get_base_questions ++ get_category_questions category
  if geminiConfigured then
    match generate_ai_questions_caught call jsonLoads with
    | .ok ai_questions =>
      { questions := all_questions ++ ai_questions, ai_generated := true }
    | .error _ =>
      { questions := all_questions, ai_generated := false }
  else
    { questions := all_questions, ai_generated := false }

/-- The dict `analyze_with_gemini` is expected to return. -/
structure AnalysisResult where
  analysis : String
  recommendations : List String
deriving DecidableEq, Repr

/-- The deterministic fallback of `analyze_with_gemini`: a templated
string embedding the numeric score, plus the static recommendations. -/
def analyze_fallback (score : ℤ) : AnalysisResult :=
  { analysis := "Product shows " ++ toString score ++
      "% transparency. Further analysis pending."
    recommendations := generate_basic_recommendations score }

/-- Body of `analyze_with_gemini` inside its `try`, key configured. -/
def analyze_with_gemini_body (call : Except String String)
    (jsonLoads : String → Except String AnalysisResult) :
    Except String AnalysisResult :=
  match call with
  | .error e => .error e
  | .ok text => jsonLoads (clean_response text)

/-- Embeds `analyze_with_gemini` as its caller observes it: the `except` clause
replaces every raised exception with the deterministic fallback. -/
def analyze_with_gemini_caught (score : ℤ) (call : Except String String)
    (jsonLoads : String → Except String AnalysisResult) :
    Except String AnalysisResult :=
  match analyze_with_gemini_body call jsonLoads with
  | .ok r => .ok r
  | .error _ => .ok (analyze_fallback score)

/-- The analysis object `analyze_with_gemini` returns. -/
def analyze_with_gemini (score : ℤ) (call : Except String String)
    (jsonLoads : String → Except String AnalysisResult) : AnalysisResult :=
  match analyze_with_gemini_caught score call jsonLoads with
  | .ok r => r
  | .error _ => analyze_fallback score

/-- Category score as claim C2 words it: `round` on the completion ratio
of the filtered subset instead of the code's truncating `int()` cast. -/
def spec_category_score (responses : List Response) (category : String) : ℤ :=
  let category_responses := responses.filter (fun r => r.category == some category)
  if category_responses.isEmpty then 50
  else
    let answered := (category_responses.filter isAnswered).length
    round ((100 : ℚ) * answered / category_responses.length)

/-- Quality points as claim C3 words them: thresholds on the length of
the trimmed answer instead of the code's raw answer. -/
def spec_quality_points_of (r : Response) : ℕ :=
  let answer := pystrip (r.answer.getD "")
  if answer.length > 100 then 3
  else if answer.length > 50 then 2
  else if answer.length > 10 then 1
  else 0

/-- Three responses tagged `health`, two of them answered. -/
def cexHealthThree : List Response :=
  [{ question := some "q1", answer := some "Yes", category := some "health" },
   { question := some "q2", answer := some "No", category := some "health" },
   { question := some "q3", answer := none, category := some "health" }]

/-- Two responses tagged `health`, one of them answered. -/
def cexHealthTwo : List Response :=
  [{ question := some "q1", answer := some "Yes", category := some "health" },
   { question := some "q2", answer := none, category := some "health" }]

/-- An answer of 101 whitespace characters. -/
def spacesAnswer : Response :=
  { question := some "q", answer := some (String.mk (List.replicate 101 ' ')),
    category := some "health" }

/-- A short answered health response. -/
def oneHealth : Response :=
  { question := some "q1", answer := some "Yes", category := some "health" }

/-! ### Helper lemmas -/

theorem pytrunc_eq_floor {q : ℚ} (h : 0 ≤ q) : pytrunc q = ⌊q⌋ := if_pos h

theorem pytrunc_bounds {q : ℚ} (h0 : 0 ≤ q) (h1 : q ≤ 100) :
    0 ≤ pytrunc q ∧ pytrunc q ≤ 100 := by
  rw [pytrunc_eq_floor h0]
  refine ⟨Int.le_floor.mpr (by exact_mod_cast h0), ?_⟩
  calc ⌊q⌋ ≤ ⌊(100 : ℚ)⌋ := Int.floor_mono h1
    _ = 100 := by norm_num

theorem ratio100_bounds (a n : ℕ) (h : a ≤ n) :
    0 ≤ (a : ℚ) / n * 100 ∧ (a : ℚ) / n * 100 ≤ 100 := by
  rcases Nat.eq_zero_or_pos n with hn | hn
  · subst hn
    have ha : a = 0 := Nat.le_zero.mp h
    subst ha
    norm_num
  · have h1 : (a : ℚ) / n ≤ 1 := by
      rw [div_le_one (by exact_mod_cast hn)]
      exact_mod_cast h
    have h0 : (0 : ℚ) ≤ (a : ℚ) / n := by positivity
    constructor <;> linarith

theorem score_shape_bounds (a n : ℕ) (h : a ≤ n) :
    0 ≤ pytrunc ((a : ℚ) / n * 100) ∧ pytrunc ((a : ℚ) / n * 100) ≤ 100 := by
  obtain ⟨h0, h1⟩ := ratio100_bounds a n h
  exact pytrunc_bounds h0 h1

theorem category_score_bounds (responses : List Response) (category : String) :
    0 ≤ calculate_category_score responses category ∧
    calculate_category_score responses category ≤ 100 := by
  simp only [calculate_category_score]
  split
  · norm_num
  · exact score_shape_bounds _ _ (List.length_filter_le _ _)

theorem completeness_bounds (responses : List Response) :
    0 ≤ completeness responses ∧ completeness responses ≤ 100 :=
  ratio100_bounds (answeredCount responses) responses.length
    (List.length_filter_le _ _)

theorem quality_score_bounds (responses : List Response) :
    0 ≤ quality_score responses ∧ quality_score responses ≤ 100 := by
  unfold quality_score
  exact ⟨le_min (by norm_num) (by positivity), min_le_left _ _⟩

theorem weighted_sum_bounds (responses : List Response) :
    0 ≤ overall_weighted responses ∧ overall_weighted responses ≤ 100 := by
  obtain ⟨hc0, hc1⟩ := completeness_bounds responses
  obtain ⟨hq0, hq1⟩ := quality_score_bounds responses
  obtain ⟨hh0, hh1⟩ := category_score_bounds responses "health"
  obtain ⟨he0, he1⟩ := category_score_bounds responses "ethics"
  have hh0q : (0 : ℚ) ≤ (calculate_category_score responses "health" : ℚ) := by
    exact_mod_cast hh0
  have hh1q : (calculate_category_score responses "health" : ℚ) ≤ 100 := by
    exact_mod_cast hh1
  have he0q : (0 : ℚ) ≤ (calculate_category_score responses "ethics" : ℚ) := by
    exact_mod_cast he0
  have he1q : (calculate_category_score responses "ethics" : ℚ) ≤ 100 := by
    exact_mod_cast he1
  unfold overall_weighted
  push_cast
  constructor <;> linarith

theorem basic_recommendations_ne_nil (score : ℤ) :
    generate_basic_recommendations score ≠ [] := by
  unfold generate_basic_recommendations
  split
  · simp
  · split
    · simp
    · split <;> simp

theorem generate_ai_questions_caught_eq (call : Except String String)
    (jsonLoads : String → Except String PyJson) :
    generate_ai_questions_caught call jsonLoads =
      Except.ok (generate_ai_questions call jsonLoads) := by
  unfold generate_ai_questions generate_ai_questions_caught
  rcases generate_ai_questions_body call jsonLoads with e | qs <;> rfl

theorem analyze_with_gemini_caught_eq (score : ℤ) (call : Except String String)
    (jsonLoads : String → Except String AnalysisResult) :
    analyze_with_gemini_caught score call jsonLoads =
      Except.ok (analyze_with_gemini score call jsonLoads) := by
  unfold analyze_with_gemini analyze_with_gemini_caught
  rcases analyze_with_gemini_body call jsonLoads with e | r <;> rfl

theorem generate_questions_true_eq (category : String)
    (previous_answers : List Response) (call : Except String String)
    (jsonLoads : String → Except String PyJson) :
    generate_questions category previous_answers true call jsonLoads =
      { questions := get_base_questions ++ get_category_questions category ++
          generate_ai_questions call jsonLoads,
        ai_generated := true } := by
  unfold generate_questions
  rw [generate_ai_questions_caught_eq]
  rfl

/-! ### Claim theorems -/

/-- C1: for every non-empty list of responses, the transparency-score
handler returns `transparency_score` equal to the truncating integer
cast of `completeness * 0.5 + quality_score * 0.3 +
((health_score + ethics_score) / 2) * 0.2` with
`completeness = 100 * answered / total`, and this value lies in
`[0, 100]`. -/
theorem transparency_formula_and_range (responses : List Response)
    (h : responses ≠ []) :
    (calculate_transparency_score responses).transparency_score =
      pytrunc (100 * (answeredCount responses : ℚ) / responses.length * (1/2) +
        quality_score responses * (3/10) +
        ((calculate_category_score responses "health" +
          calculate_category_score responses "ethics" : ℤ) : ℚ) / 2 * (1/5)) ∧
    0 ≤ (calculate_transparency_score responses).transparency_score ∧
    (calculate_transparency_score responses).transparency_score ≤ 100 := by
  have hlen : responses.length ≠ 0 := fun hl => h (List.length_eq_zero.mp hl)
  have hval : (calculate_transparency_score responses).transparency_score =
      pytrunc (overall_weighted responses) := by
    unfold calculate_transparency_score
    rw [if_neg hlen]
  obtain ⟨hw0, hw1⟩ := weighted_sum_bounds responses
  obtain ⟨ht0, ht1⟩ := pytrunc_bounds hw0 hw1
  refine ⟨?_, ?_, ?_⟩
  · rw [hval]
    congr 1
    unfold overall_weighted completeness
    ring
  · rw [hval]; exact ht0
  · rw [hval]; exact ht1

/-- Witness for C1 at a one-response input. -/
theorem transparency_formula_and_range_witness :
    ([oneHealth] : List Response) ≠ [] ∧
    0 ≤ (calculate_transparency_score [oneHealth]).transparency_score :=
  ⟨by decide, (transparency_formula_and_range [oneHealth] (by decide)).2.1⟩

/-- C2 counterexample: with three `health` responses and two of them
answered the code truncates `200/3` to 66 while the claim's `round`
gives 67; and with one answered response out of two the code returns 50
even though responses do carry the `health` label, so "returns 50 iff no
response carries the label" fails as well. -/
theorem category_score_round_counterexample :
    calculate_category_score cexHealthThree "health" = 66 ∧
    spec_category_score cexHealthThree "health" = 67 ∧
    calculate_category_score cexHealthTwo "health" = 50 ∧
    cexHealthTwo.filter (fun r => r.category == some "health") ≠ [] := by
  refine ⟨?_, ?_, ?_, by decide⟩
  · have h : calculate_category_score cexHealthThree "health" =
        pytrunc (((2 : ℕ) : ℚ) / ((3 : ℕ) : ℚ) * 100) := rfl
    rw [h]
    norm_num [pytrunc]
  · have h : spec_category_score cexHealthThree "health" =
        round ((100 : ℚ) * ((2 : ℕ) : ℚ) / ((3 : ℕ) : ℚ)) := rfl
    rw [h]
    norm_num [round_eq]
  · have h : calculate_category_score cexHealthTwo "health" =
        pytrunc (((1 : ℕ) : ℚ) / ((2 : ℕ) : ℚ) * 100) := rfl
    rw [h]
    norm_num [pytrunc]

/-- C2 amended: the category scorer returns 50 whenever no response
carries the label; otherwise it returns the truncating integer cast
(not `round`) of `100 * answered / total` over the filtered subset,
a value that can itself equal 50. -/
theorem category_score_amended (responses : List Response) (category : String) :
    (responses.filter (fun r => r.category == some category) = [] →
      calculate_category_score responses category = 50) ∧
    (responses.filter (fun r => r.category == some category) ≠ [] →
      calculate_category_score responses category =
        pytrunc (100 *
          (((responses.filter (fun r => r.category == some category)).filter
            isAnswered).length : ℚ) /
          ((responses.filter (fun r => r.category == some category)).length : ℚ))) := by
  constructor
  · intro h
    simp [calculate_category_score, h]
  · intro h
    simp only [calculate_category_score]
    rw [if_neg (by simpa [List.isEmpty_iff] using h)]
    congr 1
    ring

/-- Witness for C2's amended statement. -/
theorem category_score_amended_witness :
    cexHealthTwo.filter (fun r => r.category == some "health") ≠ [] ∧
    calculate_category_score cexHealthTwo "health" =
      pytrunc (100 *
        (((cexHealthTwo.filter (fun r => r.category == some "health")).filter
          isAnswered).length : ℚ) /
        ((cexHealthTwo.filter (fun r => r.category == some "health")).length : ℚ)) :=
  ⟨by decide, (category_score_amended cexHealthTwo "health").2 (by decide)⟩

/-- C3 counterexample: an answer of 101 spaces has raw length 101, so
the code awards 3 quality points, while the claim's trimmed length is 0
and would award none. -/
theorem quality_points_trim_counterexample :
    quality_points_of spacesAnswer = 3 ∧
    spec_quality_points_of spacesAnswer = 0 := by
  constructor <;> decide

/-- C3 amended: quality points come from the raw (untrimmed) string of
the answer field with strict thresholds — 3 points above 100
characters, 2 above 50, 1 above 10, else 0 — and
`quality_score = min(100, 100 * points / (3 * total))`. -/
theorem quality_points_amended (r : Response) (responses : List Response) :
    (100 < (r.answer.getD "").length → quality_points_of r = 3) ∧
    (50 < (r.answer.getD "").length ∧ (r.answer.getD "").length ≤ 100 →
      quality_points_of r = 2) ∧
    (10 < (r.answer.getD "").length ∧ (r.answer.getD "").length ≤ 50 →
      quality_points_of r = 1) ∧
    ((r.answer.getD "").length ≤ 10 → quality_points_of r = 0) ∧
    (responses ≠ [] → quality_score responses =
      min 100 (100 * (quality_points responses : ℚ) / (3 * responses.length))) := by
  refine ⟨fun h => ?_, fun h => ?_, fun h => ?_, fun h => ?_, fun _ => ?_⟩
  · unfold quality_points_of
    rw [if_pos (by omega)]
  · unfold quality_points_of
    rw [if_neg (by omega), if_pos (by omega)]
  · unfold quality_points_of
    rw [if_neg (by omega), if_neg (by omega), if_pos (by omega)]
  · unfold quality_points_of
    rw [if_neg (by omega), if_neg (by omega), if_neg (by omega)]
  · unfold quality_score
    congr 1
    ring

/-- Witness for C3's amended statement. -/
theorem quality_points_amended_witness :
    quality_points_of oneHealth = 0 ∧
    quality_score [oneHealth] =
      min 100 (100 * (quality_points [oneHealth] : ℚ) /
        (3 * ([oneHealth] : List Response).length)) :=
  ⟨(quality_points_amended oneHealth []).2.2.2.1 (by decide),
   (quality_points_amended oneHealth [oneHealth]).2.2.2.2 (by decide)⟩

/-- C4: the empty response list short-circuits to all-zero scores, one
recommendation, and the fixed no-data analysis string. -/
theorem empty_responses_result :
    calculate_transparency_score [] =
      { transparency_score := 0, health_score := 0, ethics_score := 0,
        recommendations := ["Add product information to get a transparency score"],
        ai_analysis := "No data available for analysis" } ∧
    (calculate_transparency_score []).recommendations.length = 1 :=
  ⟨rfl, rfl⟩

/-- C5: the static recommendation generator returns exactly 3 strings on
`[80,100]`, 4 on `[60,80)`, 5 on `[40,60)` and 6 on `[0,40)`. -/
theorem basic_recommendations_bracket_lengths (score : ℤ) :
    (80 ≤ score ∧ score ≤ 100 → (generate_basic_recommendations score).length = 3) ∧
    (60 ≤ score ∧ score < 80 → (generate_basic_recommendations score).length = 4) ∧
    (40 ≤ score ∧ score < 60 → (generate_basic_recommendations score).length = 5) ∧
    (0 ≤ score ∧ score < 40 → (generate_basic_recommendations score).length = 6) := by
  refine ⟨fun h => ?_, fun h => ?_, fun h => ?_, fun h => ?_⟩
  · unfold generate_basic_recommendations
    rw [if_pos (by omega : score ≥ 80)]
    rfl
  · unfold generate_basic_recommendations
    rw [if_neg (by omega : ¬ score ≥ 80), if_pos (by omega : score ≥ 60)]
    rfl
  · unfold generate_basic_recommendations
    rw [if_neg (by omega : ¬ score ≥ 80), if_neg (by omega : ¬ score ≥ 60),
      if_pos (by omega : score ≥ 40)]
    rfl
  · unfold generate_basic_recommendations
    rw [if_neg (by omega : ¬ score ≥ 80), if_neg (by omega : ¬ score ≥ 60),
      if_neg (by omega : ¬ score ≥ 40)]
    rfl

/-- Witness for C5 at score 85. -/
theorem basic_recommendations_bracket_lengths_witness :
    ((80 : ℤ) ≤ 85 ∧ (85 : ℤ) ≤ 100) ∧
    (generate_basic_recommendations 85).length = 3 :=
  ⟨⟨by decide, by decide⟩,
   (basic_recommendations_bracket_lengths 85).1 ⟨by decide, by decide⟩⟩

/-- C6: with AI disabled, every handler result has transparency, health
and ethics scores in `[0,100]` and a non-empty recommendation list. -/
theorem score_response_invariants (responses : List Response) :
    0 ≤ (calculate_transparency_score responses).transparency_score ∧
    (calculate_transparency_score responses).transparency_score ≤ 100 ∧
    0 ≤ (calculate_transparency_score responses).health_score ∧
    (calculate_transparency_score responses).health_score ≤ 100 ∧
    0 ≤ (calculate_transparency_score responses).ethics_score ∧
    (calculate_transparency_score responses).ethics_score ≤ 100 ∧
    (calculate_transparency_score responses).recommendations ≠ [] := by
  unfold calculate_transparency_score
  split
  · refine ⟨by norm_num, by norm_num, by norm_num, by norm_num, by norm_num,
      by norm_num, by simp⟩
  · obtain ⟨hw0, hw1⟩ := weighted_sum_bounds responses
    obtain ⟨ht0, ht1⟩ := pytrunc_bounds hw0 hw1
    obtain ⟨hh0, hh1⟩ := category_score_bounds responses "health"
    obtain ⟨he0, he1⟩ := category_score_bounds responses "ethics"
    exact ⟨ht0, ht1, hh0, hh1, he0, he1, basic_recommendations_ne_nil _⟩

/-- C7: with the AI credential absent, `generate-questions` for `Food`
returns exactly the 4 base questions followed by the 3 Food catalog
questions in declared order with `ai_generated` false, and any category
outside the catalog yields only the base questions. -/
theorem generate_questions_food_and_unknown (call : Except String String)
    (jsonLoads : String → Except String PyJson) (c : String) :
    generate_questions "Food" [] false call jsonLoads =
      { questions := get_base_questions ++ get_category_questions "Food",
        ai_generated := false } ∧
    (generate_questions "Food" [] false call jsonLoads).questions.length = 7 ∧
    (generate_questions "Food" [] false call jsonLoads).questions.map Question.id =
      ["ingredients", "allergens", "origin", "certifications",
       "nutrition", "preservatives", "expiry"] ∧
    (c ≠ "Food" → c ≠ "Beverage" → c ≠ "Cosmetics" → c ≠ "Supplements" →
      get_category_questions c = [] ∧
      generate_questions c [] false call jsonLoads =
        { questions := get_base_questions, ai_generated := false }) := by
  refine ⟨rfl, rfl, rfl, fun h1 h2 h3 h4 => ?_⟩
  have hc : get_category_questions c = [] := by
    unfold get_category_questions
    rw [if_neg h1, if_neg h2, if_neg h3, if_neg h4]
  have hq : generate_questions c [] false call jsonLoads =
      { questions := get_base_questions ++ get_category_questions c,
        ai_generated := false } := rfl
  rw [hq, hc, List.append_nil]
  exact ⟨rfl, rfl⟩

/-- Witness for C7 at the unknown category `Electronics`. -/
theorem generate_questions_food_and_unknown_witness :
    get_category_questions "Electronics" = [] ∧
    generate_questions "Electronics" [] false (Except.error "down")
      (fun _ => Except.ok PyJson.other) =
      { questions := get_base_questions, ai_generated := false } :=
  (generate_questions_food_and_unknown (Except.error "down")
    (fun _ => Except.ok PyJson.other) "Electronics").2.2.2
    (by decide) (by decide) (by decide) (by decide)

/-- C8: the AI question generator returns `[]` on a failed model call,
on a reply whose cleaned text fails to parse as JSON, and on a parsed
value that is not a list; and as its caller observes it, it always
returns normally (`.ok`), never propagating an exception. -/
theorem ai_questions_failure_swallowed (call : Except String String)
    (jsonLoads : String → Except String PyJson) :
    generate_ai_questions_caught call jsonLoads =
      Except.ok (generate_ai_questions call jsonLoads) ∧
    (∀ e, call = Except.error e → generate_ai_questions call jsonLoads = []) ∧
    (∀ t e, call = Except.ok t →
      jsonLoads (clean_response t) = Except.error e →
      generate_ai_questions call jsonLoads = []) ∧
    (∀ t, call = Except.ok t →
      jsonLoads (clean_response t) = Except.ok PyJson.other →
      generate_ai_questions call jsonLoads = []) := by
  refine ⟨generate_ai_questions_caught_eq call jsonLoads, ?_, ?_, ?_⟩
  · intro e he
    subst he
    rfl
  · intro t e ht hj
    subst ht
    simp [generate_ai_questions, generate_ai_questions_caught,
      generate_ai_questions_body, hj]
  · intro t ht hj
    subst ht
    simp [generate_ai_questions, generate_ai_questions_caught,
      generate_ai_questions_body, hj]

/-- Witness for C8 at a failed model call. -/
theorem ai_questions_failure_swallowed_witness :
    generate_ai_questions (Except.error "network unreachable")
      (fun _ => Except.error "invalid json") = [] :=
  (ai_questions_failure_swallowed (Except.error "network unreachable")
    (fun _ => Except.error "invalid json")).2.1 "network unreachable" rfl

/-- C9: on a failed analysis call or an unparsable reply,
`analyze_with_gemini` returns the deterministic fallback whose analysis
string embeds the numeric score and whose recommendations are the static
bracket list; as its caller observes it, it always returns normally. -/
theorem gemini_analysis_fallback (score : ℤ) (call : Except String String)
    (jsonLoads : String → Except String AnalysisResult) :
    analyze_with_gemini_caught score call jsonLoads =
      Except.ok (analyze_with_gemini score call jsonLoads) ∧
    (∀ e, call = Except.error e →
      analyze_with_gemini score call jsonLoads =
        { analysis := "Product shows " ++ toString score ++
            "% transparency. Further analysis pending.",
          recommendations := generate_basic_recommendations score }) ∧
    (∀ t e, call = Except.ok t →
      jsonLoads (clean_response t) = Except.error e →
      analyze_with_gemini score call jsonLoads =
        { analysis := "Product shows " ++ toString score ++
            "% transparency. Further analysis pending.",
          recommendations := generate_basic_recommendations score }) := by
  refine ⟨analyze_with_gemini_caught_eq score call jsonLoads, ?_, ?_⟩
  · intro e he
    subst he
    rfl
  · intro t e ht hj
    subst ht
    simp [analyze_with_gemini, analyze_with_gemini_caught,
      analyze_with_gemini_body, analyze_fallback, hj]

/-- Witness for C9 at a failed analysis call and score 42. -/
theorem gemini_analysis_fallback_witness :
    analyze_with_gemini 42 (Except.error "quota exceeded")
      (fun _ => Except.error "invalid json") =
      { analysis := "Product shows " ++ toString (42 : ℤ) ++
          "% transparency. Further analysis pending.",
        recommendations := generate_basic_recommendations 42 } :=
  (gemini_analysis_fallback 42 (Except.error "quota exceeded")
    (fun _ => Except.error "invalid json")).2.1 "quota exceeded" rfl

/-- C10: with the credential configured, `generate-questions` reports
`ai_generated = true` for every outcome of the AI sub-call — the AI
generator swallows all its exceptions, so the handler's failure branch
is unreachable — and on a failed call no AI question is appended even
though the flag is still true. -/
theorem ai_generated_flag_always_true (category : String)
    (previous_answers : List Response) (call : Except String String)
    (jsonLoads : String → Except String PyJson) :
    (generate_questions category previous_answers true call jsonLoads).ai_generated
      = true ∧
    (∀ e, call = Except.error e →
      generate_questions category previous_answers true call jsonLoads =
        { questions := get_base_questions ++ get_category_questions category,
          ai_generated := true }) := by
  refine ⟨?_, fun e he => ?_⟩
  · rw [generate_questions_true_eq]
  · rw [generate_questions_true_eq]
    subst he
    have hb : generate_ai_questions (Except.error e) jsonLoads = [] := rfl
    rw [hb, List.append_nil]

/-- Witness for C10 at a failed model call. -/
theorem ai_generated_flag_always_true_witness :
    generate_questions "Food" [] true (Except.error "timeout")
      (fun _ => Except.ok (PyJson.list [])) =
      { questions := get_base_questions ++ get_category_questions "Food",
        ai_generated := true } :=
  (ai_generated_flag_always_true "Food" [] (Except.error "timeout")
    (fun _ => Except.ok (PyJson.list []))).2 "timeout" rfl

end AIService
